import Mathlib

/-!
Shallow embedding of the DynamoDB access layer in `dynamo_app.py`
(class `DynamoDBApp`): the item data model, the store-driver primitives the
client calls (conditional put, point get with projection, range query,
atomic update, conditional delete, batch get), and the client operations
themselves, translated line by line from the source.

The store driver (boto3 / DynamoDB itself) is an external collaborator of
this repository; its primitives are modelled from the spec's driver
contract (spec sections 6 and 7) and standard DynamoDB semantics: a table
maps a composite primary key (`userId` partition key, `timestamp` sort
key, both strings) to at most one item; condition expressions are
evaluated against the item currently stored under the written key.
-/

/-- A dynamically-typed attribute value: string, number, boolean, nested
mapping, or null (spec section 3, "Item"). Mappings are insertion-ordered
association lists, mirroring Python dicts. -/
inductive DVal where
  | str : String → DVal
  | num : Int → DVal
  | bool : Bool → DVal
  | map : List (String × DVal) → DVal
  | null : DVal

/-- An Item: a mapping from attribute name to value. -/
abbrev Item := List (String × DVal)

/-- Python dict lookup on the association-list representation. -/
def dlookup {α : Type} (l : List (String × α)) (k : String) : Option α :=
  (l.find? (fun kv => kv.1 == k)).map Prod.snd

/-- Python dict assignment `d[k] = v`: replaces the value in place when the
key is present (keeping its position), otherwise appends the new pair.
(Association lists standing for Python dicts never repeat a key.) -/
def dictSet {α : Type} (l : List (String × α)) (k : String) (v : α) :
    List (String × α) :=
  match l with
  | [] => [(k, v)]
  | kv :: rest => if kv.1 == k then (k, v) :: rest else kv :: dictSet rest k v

/-- The primary key of an item: the `userId` and `timestamp` string
attributes (the table's partition key and sort key). `none` if either is
missing or not a string — such an item cannot live in the table. -/
def itemKey (it : Item) : Option (String × String) :=
  match dlookup it "userId", dlookup it "timestamp" with
  | some (.str u), some (.str t) => some (u, t)
  | _, _ => none

/-- The table: a list of items, at most one per primary key. -/
abbrev Table := List Item

/-- Driver-side point lookup by full primary key. -/
def findByKey (tbl : Table) (u t : String) : Option Item :=
  tbl.find? (fun it => itemKey it == some (u, t))

/-- Remove the item (if any) stored under the key. -/
def eraseByKey (tbl : Table) (u t : String) : Table :=
  tbl.filter (fun x => ! (itemKey x == some (u, t)))

/-- Store an item under its key, replacing any previous item at that key. -/
def replaceByKey (tbl : Table) (u t : String) (it : Item) : Table :=
  eraseByKey tbl u t ++ [it]

/-- Condition expressions as used by the source: attribute existence tests
combined with AND (`attribute_not_exists(userId) AND attribute_not_exists(#ts)`,
`attribute_exists(userId)`). -/
inductive Cond where
  | attrNotExists : String → Cond
  | attrExists : String → Cond
  | and : Cond → Cond → Cond
deriving DecidableEq, Repr

/-- DynamoDB evaluates a write's condition expression against the item
currently stored under the written primary key (`none` when absent):
`attribute_not_exists` holds when there is no item or the item lacks the
attribute. -/
def evalCond : Cond → Option Item → Bool
  | .attrNotExists _, none => true
  | .attrNotExists a, some it => (dlookup it a).isNone
  | .attrExists _, none => false
  | .attrExists a, some it => (dlookup it a).isSome
  | .and c1 c2, it => evalCond c1 it && evalCond c2 it

/-- The error taxonomy the client observes from the driver
(`ClientError` with an error code): a failed conditional check
(`ConditionalCheckFailedException`) is distinguished from every other
driver error (spec section 7). -/
inductive DynErr where
  | conditionFailed
  | validationError (msg : String)
deriving DecidableEq, Repr

/-- Driver primitive `put_item` (spec section 6, PointPut): evaluates the
optional condition against the existing item under the new item's key; on
success replaces/stores the item, on condition failure changes nothing. -/
def putItem (tbl : Table) (item : Item) (cond : Option Cond) :
    Except DynErr Table :=
  match itemKey item with
  | none => .error (.validationError "missing key attribute")
  | some (u, t) =>
      let existing := findByKey tbl u t
      match cond with
      | some c =>
          if evalCond c existing then .ok (replaceByKey tbl u t item)
          else .error .conditionFailed
      | none => .ok (replaceByKey tbl u t item)

/-- Projection semantics: the returned item keeps exactly those of its
attributes named in the projection list. -/
def projectItem (ps : List String) (it : Item) : Item :=
  it.filter (fun kv => ps.contains kv.1)

/-- Driver primitive `get_item` (spec section 6, PointGet): point lookup,
applying the optional projection; absence is `none`, not an error. -/
def getItem (tbl : Table) (u t : String) (proj : Option (List String)) :
    Option Item :=
  (findByKey tbl u t).map (fun it =>
    match proj with
    | none => it
    | some ps => projectItem ps it)

/-- Sort-key range conditions the source builds with
`Key('timestamp').between/gte/lte`. -/
inductive RangeCond where
  | between (lo hi : String)
  | gte (lo : String)
  | lte (hi : String)
deriving DecidableEq, Repr

/-- Lexicographic order on character lists: DynamoDB compares string sort
keys by their UTF-8 bytes, which for valid UTF-8 coincides with
lexicographic order on the code points. -/
def lexLe : List Char → List Char → Bool
  | [], _ => true
  | _ :: _, [] => false
  | a :: as, b :: bs => if a = b then lexLe as bs else decide (a < b)

/-- String comparison used by the store for sort keys. -/
def strLe (a b : String) : Bool := lexLe a.data b.data

/-- Whether a sort-key value satisfies a range condition (`between` is
inclusive on both ends). -/
def matchRange : RangeCond → String → Bool
  | .between lo hi, t => strLe lo t && strLe t hi
  | .gte lo, t => strLe lo t
  | .lte hi, t => strLe t hi

/-- Whether an item belongs to the result of a query on partition `u` with
optional sort-key condition `rc`. -/
def matchesQuery (u : String) (rc : Option RangeCond) (it : Item) : Bool :=
  match itemKey it with
  | some (u', t) =>
      u' == u && (match rc with
                  | none => true
                  | some c => matchRange c t)
  | none => false

/-- The sort-key string of an item (items in a table always have one). -/
def sortKeyStr (it : Item) : String :=
  match itemKey it with
  | some (_, t) => t
  | none => ""

/-- Ascending sort-key order on items. -/
def itemLe (a b : Item) : Prop :=
  strLe (sortKeyStr a) (sortKeyStr b) = true

instance : DecidableRel itemLe := fun _ _ =>
  inferInstanceAs (Decidable (_ = true))

/-- Driver primitive `query` with `ScanIndexForward=True` (spec section 6,
RangeQuery): the items of the partition satisfying the sort-key condition,
in ascending sort-key order. -/
def queryDriver (tbl : Table) (u : String) (rc : Option RangeCond) :
    List Item :=
  List.insertionSort itemLe (tbl.filter (matchesQuery u rc))

/-- The hard per-call cap of the driver's `batch_get_item` primitive
(spec sections 4 and 6: "the underlying primitive enforces a hard per-call
cap — e.g. 100 items"; the source's own docstring: "Retrieves up to 100
items in single request"). -/
def batchGetLimit : Nat := 100

/-- Driver primitive `batch_get_item` (spec section 6, BatchGet): rejects a
request of more than `batchGetLimit` keys; otherwise returns the items that
exist, with missing keys omitted. -/
def batchGetItems (tbl : Table) (keys : List (String × String)) :
    Except DynErr (List Item) :=
  if keys.length > batchGetLimit then
    .error (.validationError "Too many items requested")
  else
    .ok (keys.filterMap (fun k => findByKey tbl k.1 k.2))

/-- One clause of an `UpdateExpression` as the source builds them.
`addNum a i` stands for the source string `ADD a :inc`; `setPath p v`
stands for a `SET` assignment whose document path is `p` (each alias
placeholder such as `#prefs` already resolved through
`ExpressionAttributeNames`, and the value placeholder through
`ExpressionAttributeValues`). -/
inductive UpdateOp where
  | addNum (attr : String) (inc : Int)
  | setPath (path : List String) (v : DVal)

/-- The `ReturnValues` modes the source uses. -/
inductive ReturnValues where
  | updatedNew
  | allNew

/-- Apply one update clause to an item. `ADD` on a missing attribute
creates it holding the operand; `ADD` on a non-number is a validation
error. A nested `SET a.b = v` requires `a` to be a stored mapping
(otherwise DynamoDB raises "document path provided is invalid") and
rewrites only the `b` entry inside it. -/
def applyUpdateOp (it : Item) : UpdateOp → Except DynErr Item
  | .addNum a i =>
      match dlookup it a with
      | none => .ok (dictSet it a (.num i))
      | some (.num n) => .ok (dictSet it a (.num (n + i)))
      | some _ => .error (.validationError "ADD on non-numeric attribute")
  | .setPath [a] v => .ok (dictSet it a v)
  | .setPath [a, b] v =>
      match dlookup it a with
      | some (.map m) => .ok (dictSet it a (.map (dictSet m b v)))
      | _ => .error (.validationError "document path provided is invalid")
  | .setPath _ _ => .error (.validationError "invalid document path")

/-- The top-level attribute an update clause touches. -/
def topAttr : UpdateOp → String
  | .addNum a _ => a
  | .setPath p _ => p.headD ""

/-- Driver primitive `update_item` (spec section 6, AtomicUpdate): an
upsert — when no item is stored under the key, the update starts from an
item holding just the two key attributes. Applies the clauses in order,
stores the result, and returns the attributes selected by `ReturnValues`:
`UPDATED_NEW` only the new values of the touched top-level attributes,
`ALL_NEW` the whole new item. -/
def updateItem (tbl : Table) (u t : String) (ops : List UpdateOp)
    (rv : ReturnValues) : Except DynErr (Item × Table) := do
  let old := (findByKey tbl u t).getD [("userId", .str u), ("timestamp", .str t)]
  let newIt ← ops.foldlM applyUpdateOp old
  let attrs :=
    match rv with
    | .updatedNew =>
        ops.foldl (fun acc op =>
          match dlookup newIt (topAttr op) with
          | some v => dictSet acc (topAttr op) v
          | none => acc) []
    | .allNew => newIt
  .ok (attrs, replaceByKey tbl u t newIt)

/-- Driver primitive `delete_item` with `ReturnValues='ALL_OLD'`
(spec section 6, PointDelete): evaluates the optional condition against
the stored item; on success removes it and returns its full prior state. -/
def deleteItem (tbl : Table) (u t : String) (cond : Option Cond) :
    Except DynErr (Option Item × Table) :=
  let existing := findByKey tbl u t
  match cond with
  | some c =>
      if evalCond c existing then .ok (existing, eraseByKey tbl u t)
      else .error .conditionFailed
  | none => .ok (existing, eraseByKey tbl u t)

/-! ## The client operations of `DynamoDBApp`, translated from the source -/

/-- The item built by `put_user_profile` (source lines 53-62): a Python
dict literal listing `userId`, `timestamp` (the current clock second as a
decimal string), `email`, `firstName`, `lastName`, then splicing `**kwargs`
last — so a kwarg whose name matches an earlier key overwrites that entry. -/
def buildProfileItem (now : Nat) (user_id email first_name last_name : String)
    (kwargs : List (String × DVal)) : Item :=
  kwargs.foldl (fun it kv => dictSet it kv.1 kv.2)
    [("userId", .str user_id),
     ("timestamp", .str (toString now)),
     ("email", .str email),
     ("firstName", .str first_name),
     ("lastName", .str last_name)]

/-- `put_user_profile` (source lines 47-80): conditional put with
`ConditionExpression='attribute_not_exists(userId) AND attribute_not_exists(#ts)'`
and `ExpressionAttributeNames` resolving `#ts` to `timestamp`. The current
clock second `now` is passed explicitly (the source reads `time.time()`).
On success returns the new table; a `ConditionalCheckFailedException` is
re-raised as `conditionFailed` (source classifies it distinctly, then
raises). -/
def put_user_profile (tbl : Table) (now : Nat)
    (user_id email first_name last_name : String)
    (kwargs : List (String × DVal)) : Except DynErr Table :=
  let item := buildProfileItem now user_id email first_name last_name kwargs
  putItem tbl item (some (.and (.attrNotExists "userId") (.attrNotExists "timestamp")))

/-- The projection of `get_user_profile` (source line 95): the attribute
names listed in
`ProjectionExpression='userId, email, firstName, lastName, loginCount'`.
Note it does not include `timestamp`. -/
def profileProjection : List String :=
  ["userId", "email", "firstName", "lastName", "loginCount"]

/-- `get_user_profile` (source lines 82-106): point `get_item` with the
projection above; returns the item when present, `none` (the source's
`None`) when the response has no `Item`. -/
def get_user_profile (tbl : Table) (user_id timestamp : String) : Option Item :=
  getItem tbl user_id timestamp (some profileProjection)

/-- Python truthiness of an optional string argument: `if start_time:` is
taken when the argument is neither `None` nor the empty string. -/
def pyTruthy : Option String → Bool
  | none => false
  | some s => s ≠ ""

/-- The sort-key condition `query_user_activity` builds (source lines
115-124): `between` when `start_time and end_time` is truthy, else `gte`
when `start_time` is truthy, else `lte` when `end_time` is truthy, else no
sort-key condition. -/
def buildRange (start_time end_time : Option String) : Option RangeCond :=
  if pyTruthy start_time && pyTruthy end_time then
    some (.between (start_time.getD "") (end_time.getD ""))
  else if pyTruthy start_time then
    some (.gte (start_time.getD ""))
  else if pyTruthy end_time then
    some (.lte (end_time.getD ""))
  else
    none

/-- `query_user_activity` (source lines 108-136): partition-scoped `query`
with the sort-key condition above and `ScanIndexForward=True` (ascending). -/
def query_user_activity (tbl : Table) (user_id : String)
    (start_time end_time : Option String) : List Item :=
  queryDriver tbl user_id (buildRange start_time end_time)

/-- `update_login_count` (source lines 138-164): `update_item` with
`UpdateExpression='ADD loginCount :inc'` and `ReturnValues='UPDATED_NEW'`.
The source returns the driver response; its `Attributes` member (the first
component here) holds only the updated attributes. -/
def update_login_count (tbl : Table) (user_id timestamp : String)
    (increment : Int) : Except DynErr (Item × Table) :=
  updateItem tbl user_id timestamp [.addNum "loginCount" increment] .updatedNew

/-- The request pieces `update_preferences` accumulates (source lines
172-186): `update_parts` (each entry standing for a source string such as
`'#prefs.#theme = :theme'`, kept as its alias path and value placeholder),
`ExpressionAttributeValues` and `ExpressionAttributeNames`, each extended
exactly when the corresponding optional argument `is not None`. -/
def buildPrefsUpdate (theme notifications : Option DVal) :
    List (List String × String) × List (String × DVal) × List (String × String) :=
  let update_parts : List (List String × String) := []
  let attr_values : List (String × DVal) := []
  let attr_names : List (String × String) := []
  let (update_parts, attr_values, attr_names) :=
    match theme with
    | some th =>
        (update_parts ++ [(["#prefs", "#theme"], ":theme")],
         dictSet attr_values ":theme" th,
         dictSet (dictSet attr_names "#prefs" "preferences") "#theme" "theme")
    | none => (update_parts, attr_values, attr_names)
  let (update_parts, attr_values, attr_names) :=
    match notifications with
    | some nf =>
        (update_parts ++ [(["#prefs", "#notif"], ":notif")],
         dictSet attr_values ":notif" nf,
         dictSet (dictSet attr_names "#prefs" "preferences") "#notif" "notifications")
    | none => (update_parts, attr_values, attr_names)
  (update_parts, attr_values, attr_names)

/-- Resolve one accumulated `SET` clause into an update operation: each
alias in the document path through `ExpressionAttributeNames`, the value
placeholder through `ExpressionAttributeValues`. -/
def resolveOp (attr_names : List (String × String))
    (attr_values : List (String × DVal)) (part : List String × String) :
    UpdateOp :=
  .setPath (part.1.map (fun a => (dlookup attr_names a).getD a))
    ((dlookup attr_values part.2).getD .null)

/-- `update_preferences` (source lines 166-207): builds the partial `SET`
update above; when `update_parts` is empty it returns the `None` sentinel
before the `try` block, issuing no driver request. Otherwise one
`update_item` call with `ReturnValues='ALL_NEW'`, whose `Attributes` the
source returns. The result is (returned value, table after the call,
number of driver requests issued). -/
def update_preferences (tbl : Table) (user_id timestamp : String)
    (theme notifications : Option DVal) :
    Option (Except DynErr Item) × Table × Nat :=
  let (update_parts, attr_values, attr_names) := buildPrefsUpdate theme notifications
  if update_parts.isEmpty then
    (none, tbl, 0)
  else
    let ops := update_parts.map (resolveOp attr_names attr_values)
    match updateItem tbl user_id timestamp ops .allNew with
    | .ok (attrs, tbl') => (some (.ok attrs), tbl', 1)
    | .error e => (some (.error e), tbl, 1)

/-- `delete_user_profile` (source lines 228-256): conditional `delete_item`
with `ConditionExpression='attribute_exists(userId)'` and
`ReturnValues='ALL_OLD'`; a `ConditionalCheckFailedException` is
classified distinctly and re-raised as `conditionFailed`. -/
def delete_user_profile (tbl : Table) (user_id timestamp : String) :
    Except DynErr (Option Item × Table) :=
  deleteItem tbl user_id timestamp (some (.attrExists "userId"))

/-- The driver requests `batch_get_profiles` issues (source lines 266-272):
exactly one `batch_get_item` call carrying the whole input key list — the
source performs no chunking. -/
def batch_get_requests (user_items : List (String × String)) :
    List (List (String × String)) :=
  [user_items]

/-- `batch_get_profiles` (source lines 258-279): a single `batch_get_item`
driver call with all the input keys; returns the `Responses` list for the
table. -/
def batch_get_profiles (tbl : Table) (user_items : List (String × String)) :
    Except DynErr (List Item) :=
  batchGetItems tbl user_items

/-! ## Concrete test vectors -/

/-- A fully-populated stored profile (shaped like the seed data the demo
loads). -/
def sampleProfile : Item :=
  [("userId", .str "user123"), ("timestamp", .str "1698768000"),
   ("email", .str "user123@example.com"), ("firstName", .str "John"),
   ("lastName", .str "Doe"), ("loginCount", .num 5)]

/-- What `get_user_profile` returns for `sampleProfile`: the projection
drops `timestamp`. -/
def sampleProjected : Item :=
  [("userId", .str "user123"), ("email", .str "user123@example.com"),
   ("firstName", .str "John"), ("lastName", .str "Doe"),
   ("loginCount", .num 5)]

/-- A stored profile with no `loginCount` attribute yet. -/
def bareProfile : Item :=
  [("userId", .str "u9"), ("timestamp", .str "500")]

/-- A stored profile whose `preferences` mapping has `notifications` set. -/
def prefProfile : Item :=
  [("userId", .str "user123"), ("timestamp", .str "1698768000"),
   ("preferences", .map [("notifications", .bool true)])]

/-- An activity record with sort key `"a"`, in partition `"u"`. -/
def activityItemA : Item := [("userId", .str "u"), ("timestamp", .str "a")]

/-- 101 distinct primary keys — one more than the driver's per-call cap. -/
def manyKeys : List (String × String) :=
  (List.range 101).map (fun i => (toString i, "t"))

/-- A table holding an item for each of the 101 keys in `manyKeys`. -/
def manyTable : Table :=
  (List.range 101).map
    (fun i => [("userId", DVal.str (toString i)), ("timestamp", DVal.str "t")])

/-! ## Helper lemmas about the embedding -/

/-- `lexLe` is total. -/
theorem lexLe_total : ∀ as bs : List Char, lexLe as bs = true ∨ lexLe bs as = true
  | [], _ => Or.inl rfl
  | _ :: _, [] => Or.inr rfl
  | a :: as, b :: bs => by
      by_cases hab : a = b
      · subst hab
        simpa [lexLe] using lexLe_total as bs
      · rcases lt_or_gt_of_ne hab with h | h
        · exact Or.inl (by simp [lexLe, hab, h])
        · exact Or.inr (by simp [lexLe, Ne.symm hab, h])

/-- `lexLe` is transitive. -/
theorem lexLe_trans : ∀ as bs cs : List Char,
    lexLe as bs = true → lexLe bs cs = true → lexLe as cs = true
  | [], _, _, _, _ => rfl
  | _ :: _, [], _, h1, _ => by simp [lexLe] at h1
  | _ :: _, _ :: _, [], _, h2 => by simp [lexLe] at h2
  | a :: as, b :: bs, c :: cs, h1, h2 => by
      by_cases hab : a = b <;> by_cases hbc : b = c
      · subst hab; subst hbc
        simp only [lexLe, if_pos rfl] at h1 h2 ⊢
        exact lexLe_trans as bs cs h1 h2
      · subst hab
        simpa [lexLe, hbc] using h2
      · subst hbc
        simpa [lexLe, hab] using h1
      · simp only [lexLe, if_neg hab, decide_eq_true_eq] at h1
        simp only [lexLe, if_neg hbc, decide_eq_true_eq] at h2
        have hac : a < c := lt_trans h1 h2
        simp [lexLe, ne_of_lt hac, hac]

instance : IsTotal Item itemLe :=
  ⟨fun a b => lexLe_total (sortKeyStr a).data (sortKeyStr b).data⟩

instance : IsTrans Item itemLe :=
  ⟨fun _ _ _ h1 h2 => lexLe_trans _ _ _ h1 h2⟩

/-- Looking up the key just set yields the new value. -/
theorem dlookup_dictSet_self {α : Type} :
    ∀ (l : List (String × α)) (k : String) (v : α),
    dlookup (dictSet l k v) k = some v
  | [], k, v => by simp [dictSet, dlookup, List.find?]
  | kv :: rest, k, v => by
      cases hb : kv.1 == k
      · simpa [dictSet, hb, dlookup, List.find?] using dlookup_dictSet_self rest k v
      · simp [dictSet, hb, dlookup, List.find?]

/-- Setting one key leaves every other key's lookup unchanged. -/
theorem dlookup_dictSet_ne {α : Type} :
    ∀ (l : List (String × α)) (k k' : String) (v : α), k' ≠ k →
    dlookup (dictSet l k v) k' = dlookup l k'
  | [], k, k', v, h => by
      have hkk : (k == k') = false := beq_eq_false_iff_ne.mpr (Ne.symm h)
      simp [dictSet, dlookup, List.find?, hkk]
  | kv :: rest, k, k', v, h => by
      have hkk : (k == k') = false := beq_eq_false_iff_ne.mpr (Ne.symm h)
      cases hb : kv.1 == k
      · cases hkv : kv.1 == k'
        · simpa [dictSet, hb, dlookup, List.find?, hkv] using
            dlookup_dictSet_ne rest k k' v h
        · simp [dictSet, hb, dlookup, List.find?, hkv]
      · have hkv : (kv.1 == k') = false := by
          have he : kv.1 = k := by simpa using hb
          rw [he]; exact hkk
        simp [dictSet, hb, dlookup, List.find?, hkk, hkv]

/-- Folding dict assignments whose keys all differ from `k` does not change
the lookup at `k`. -/
theorem dlookup_foldl_dictSet_not_mem {α : Type} (k : String) :
    ∀ (kwargs : List (String × α)) (base : List (String × α)),
    (∀ kv ∈ kwargs, kv.1 ≠ k) →
    dlookup (kwargs.foldl (fun it kv => dictSet it kv.1 kv.2) base) k = dlookup base k
  | [], _, _ => rfl
  | kv :: rest, base, h => by
      rw [List.foldl_cons,
        dlookup_foldl_dictSet_not_mem k rest _
          (fun x hx => h x (List.mem_cons_of_mem _ hx)),
        dlookup_dictSet_ne _ _ _ _ (Ne.symm (h kv (List.mem_cons_self _ _)))]

/-- Folding dict assignments with pairwise-distinct keys: a pair present in
the assignments determines the final lookup at its key. -/
theorem dlookup_foldl_dictSet_mem {α : Type} :
    ∀ (kwargs : List (String × α)) (base : List (String × α)) (k : String) (v : α),
    (kwargs.map Prod.fst).Nodup → (k, v) ∈ kwargs →
    dlookup (kwargs.foldl (fun it kv => dictSet it kv.1 kv.2) base) k = some v
  | [], _, _, _, _, hmem => absurd hmem (List.not_mem_nil _)
  | kv :: rest, base, k, v, hnd, hmem => by
      rw [List.map_cons, List.nodup_cons] at hnd
      rcases List.mem_cons.mp hmem with heq | hmem'
      · subst heq
        rw [List.foldl_cons,
          dlookup_foldl_dictSet_not_mem k rest _
            (fun x hx hxk => hnd.1 (List.mem_map.mpr ⟨x, hx, hxk⟩)),
          dlookup_dictSet_self]
      · rw [List.foldl_cons]
        exact dlookup_foldl_dictSet_mem rest _ k v hnd.2 hmem'

/-- An item found under a key carries that key. -/
theorem findByKey_itemKey {tbl : Table} {u t : String} {it : Item}
    (h : findByKey tbl u t = some it) : itemKey it = some (u, t) := by
  rw [findByKey] at h
  have hp := List.find?_some h
  exact eq_of_beq hp

/-- The key attributes of an item found under a key. -/
theorem findByKey_keyAttrs {tbl : Table} {u t : String} {it : Item}
    (h : findByKey tbl u t = some it) :
    dlookup it "userId" = some (.str u) ∧ dlookup it "timestamp" = some (.str t) := by
  have hk := findByKey_itemKey h
  unfold itemKey at hk
  cases hu : dlookup it "userId" <;> rw [hu] at hk
  · exact absurd hk (by simp)
  · cases ht : dlookup it "timestamp" <;> rw [ht] at hk
    · cases ‹DVal› <;> simp_all
    · cases ‹DVal› <;> cases ‹DVal› <;> simp_all

/-- After erasing a key, no item is found under it. -/
theorem findByKey_eraseByKey (tbl : Table) (u t : String) :
    findByKey (eraseByKey tbl u t) u t = none := by
  rw [findByKey, List.find?_eq_none]
  intro x hx
  simpa using (List.mem_filter.mp hx).2

/-- After storing an item under its own key, it is found there. -/
theorem findByKey_replaceByKey (tbl : Table) (u t : String) (it : Item)
    (h : itemKey it = some (u, t)) :
    findByKey (replaceByKey tbl u t it) u t = some it := by
  rw [findByKey, replaceByKey, List.find?_append]
  have h1 : List.find? (fun x => itemKey x == some (u, t)) (eraseByKey tbl u t) = none := by
    rw [List.find?_eq_none]
    intro x hx
    simpa using (List.mem_filter.mp hx).2
  rw [h1, Option.none_or]
  simp [List.find?, h]

/-- A projection that omits an attribute name never returns it. -/
theorem dlookup_projectItem_not_mem (ps : List String) (it : Item) (a : String)
    (h : ps.contains a = false) : dlookup (projectItem ps it) a = none := by
  rw [dlookup, Option.map_eq_none', List.find?_eq_none]
  intro kv hkv
  rw [projectItem] at hkv
  have hc : ps.contains kv.1 = true := (List.mem_filter.mp hkv).2
  intro hq
  have he : kv.1 = a := by simpa using hq
  rw [he] at hc
  rw [hc] at h
  cases h

/-- `filterMap` keeps as many elements as the filter on definedness. -/
theorem length_filterMap_eq_length_filter {α β : Type} (f : α → Option β) :
    ∀ l : List α, (l.filterMap f).length = (l.filter (fun a => (f a).isSome)).length
  | [] => rfl
  | a :: l => by
      cases hf : f a <;>
        simp [List.filterMap_cons, List.filter_cons, hf,
          length_filterMap_eq_length_filter f l]


/-! ## The claims -/

/-- Claim C7: `update_preferences` called with neither optional field
supplied returns the `None` sentinel, leaves the table untouched, and
issues zero driver requests (it short-circuits before the driver call). -/
theorem updatePreferences_noop_short_circuit (tbl : Table) (u t : String) :
    update_preferences tbl u t none none = (none, tbl, 0) := rfl

/-- Claim C8: for a key with no stored item, `get_user_profile` returns the
`None` sentinel — its return type is `Option Item`, so absence is a normal
value, never an error — and conversely it returns the sentinel only when no
item is stored. -/
theorem getProfile_absent_is_sentinel (tbl : Table) (u t : String) :
    get_user_profile tbl u t = none ↔ findByKey tbl u t = none := by
  rw [get_user_profile, getItem]
  cases findByKey tbl u t <;> simp

/-- Claim C10: the profile item is built with the required fields first and
`**kwargs` spliced last, so any caller-supplied attribute — including one
named `userId`, `timestamp`, `email`, `firstName`, or `lastName` — replaces
the client-built value under that name. -/
theorem createProfile_kwargs_override (now : Nat) (u em fn ln : String)
    (kwargs : List (String × DVal)) (k : String) (v : DVal)
    (hnd : (kwargs.map Prod.fst).Nodup) (hmem : (k, v) ∈ kwargs) :
    dlookup (buildProfileItem now u em fn ln kwargs) k = some v := by
  rw [buildProfileItem]
  exact dlookup_foldl_dictSet_mem kwargs _ k v hnd hmem

/-- Witness for C10: a caller-supplied `timestamp` kwarg overrides the
clock-generated sort key `"1000"` with `"999"`. -/
theorem createProfile_kwargs_override_witness :
    dlookup (buildProfileItem 1000 "u7" "a@x.com" "A" "B"
      [("timestamp", DVal.str "999")]) "timestamp" = some (DVal.str "999") :=
  createProfile_kwargs_override 1000 "u7" "a@x.com" "A" "B"
    [("timestamp", DVal.str "999")] "timestamp" (DVal.str "999")
    (by simp) (by simp)

/-- Counterexample to claim C9: the stored item has the sort-key attribute
`timestamp`, the key exists, yet the item `get_user_profile` hands back
lacks `timestamp`, because the projection omits it. -/
theorem getProfile_sortkey_counterexample :
    (get_user_profile [sampleProfile] "user123" "1698768000").isSome = true ∧
    dlookup ((get_user_profile [sampleProfile] "user123" "1698768000").getD [])
      "timestamp" = none ∧
    dlookup sampleProfile "timestamp" = some (DVal.str "1698768000") :=
  ⟨rfl, rfl, rfl⟩

/-- Claim C9 amended: items stored in the table contain both primary-key
attributes, but an item returned by `get_user_profile` never contains the
sort-key attribute `timestamp`, since the projection
`'userId, email, firstName, lastName, loginCount'` omits it. -/
theorem getProfile_item_attrs (tbl : Table) (u t : String) (it : Item)
    (h : get_user_profile tbl u t = some it) :
    dlookup it "timestamp" = none ∧
    ∀ stored, findByKey tbl u t = some stored →
      dlookup stored "userId" = some (.str u) ∧
      dlookup stored "timestamp" = some (.str t) := by
  constructor
  · rw [get_user_profile, getItem] at h
    cases hf : findByKey tbl u t <;> rw [hf] at h
    · exact absurd h (by simp)
    · have : it = projectItem profileProjection ‹Item› := by
        simpa using h.symm
      rw [this]
      exact dlookup_projectItem_not_mem _ _ _ rfl
  · intro stored hs
    exact findByKey_keyAttrs hs

/-- Witness for C9 amended, at the sample table. -/
theorem getProfile_item_attrs_witness :
    dlookup sampleProjected "timestamp" = none ∧
    ∀ stored, findByKey [sampleProfile] "user123" "1698768000" = some stored →
      dlookup stored "userId" = some (.str "user123") ∧
      dlookup stored "timestamp" = some (.str "1698768000") :=
  getProfile_item_attrs [sampleProfile] "user123" "1698768000" sampleProjected rfl

/-- Counterexample to claim C2: with both bounds supplied but empty
(`start=""`, `end=""`), the claim's chosen condition is `between("","")`,
yet the code's truthiness test drops both bounds and returns the item with
sort key `"a"`, which does not satisfy that condition. -/
theorem queryActivity_empty_bounds_counterexample :
    query_user_activity [activityItemA] "u" (some "") (some "") = [activityItemA] ∧
    matchRange (.between "" "") (sortKeyStr activityItemA) = false :=
  ⟨rfl, rfl⟩

/-- Claim C5: `delete_user_profile` is a conditional delete requiring the
item to exist: on a missing key it reports `conditionFailed` (an error
constructor distinct from any other driver error); on an existing key it
returns the item's full prior state and removes it, so a subsequent
`get_user_profile` returns the absent sentinel. -/
theorem deleteProfile_conditional (tbl : Table) (u t : String) :
    (findByKey tbl u t = none →
       delete_user_profile tbl u t = .error .conditionFailed) ∧
    (∀ it, findByKey tbl u t = some it →
       delete_user_profile tbl u t = .ok (some it, eraseByKey tbl u t) ∧
       findByKey (eraseByKey tbl u t) u t = none ∧
       get_user_profile (eraseByKey tbl u t) u t = none) := by
  constructor
  · intro h
    simp [delete_user_profile, deleteItem, h, evalCond]
  · intro it h
    have hattr := (findByKey_keyAttrs h).1
    refine ⟨?_, findByKey_eraseByKey tbl u t, ?_⟩
    · simp [delete_user_profile, deleteItem, h, evalCond, hattr]
    · rw [get_user_profile, getItem, findByKey_eraseByKey]
      rfl

/-- Witness for C5: deleting from the empty table fails the condition;
deleting the sample profile returns its full prior state. -/
theorem deleteProfile_conditional_witness :
    delete_user_profile [] "user123" "1698768000" = .error .conditionFailed ∧
    delete_user_profile [sampleProfile] "user123" "1698768000" =
      .ok (some sampleProfile, eraseByKey [sampleProfile] "user123" "1698768000") :=
  ⟨(deleteProfile_conditional [] "user123" "1698768000").1 rfl,
   ((deleteProfile_conditional [sampleProfile] "user123" "1698768000").2
      sampleProfile rfl).1⟩

/-- Claim C4: `update_login_count` returns (as the driver response's
`Attributes`, the first component) only the updated `loginCount` attribute
with its new value — not the full item — and when the counter attribute
does not yet exist the store creates it with value equal to the supplied
increment. -/
theorem incrementCounter_updated_attr (tbl : Table) (u t : String)
    (inc : Int) (it : Item) (h : findByKey tbl u t = some it) :
    (∀ n, dlookup it "loginCount" = some (.num n) →
       update_login_count tbl u t inc =
         .ok ([("loginCount", .num (n + inc))],
              replaceByKey tbl u t (dictSet it "loginCount" (.num (n + inc))))) ∧
    (dlookup it "loginCount" = none →
       update_login_count tbl u t inc =
         .ok ([("loginCount", .num inc)],
              replaceByKey tbl u t (dictSet it "loginCount" (.num inc))) ∧
       dlookup ((findByKey (replaceByKey tbl u t
           (dictSet it "loginCount" (.num inc))) u t).getD [])
         "loginCount" = some (.num inc)) := by
  have hkey := findByKey_itemKey h
  have hkeep : ∀ v : DVal, itemKey (dictSet it "loginCount" v) = some (u, t) := by
    intro v
    rw [itemKey, dlookup_dictSet_ne _ _ _ _ (by decide),
      dlookup_dictSet_ne _ _ _ _ (by decide)]
    rw [itemKey] at hkey
    exact hkey
  constructor
  · intro n hn
    simp [update_login_count, updateItem, h, List.foldlM, applyUpdateOp, hn,
      topAttr, dlookup_dictSet_self, Bind.bind, Except.bind, Pure.pure, Except.pure, dictSet]
  · intro hn
    refine ⟨?_, ?_⟩
    · simp [update_login_count, updateItem, h, List.foldlM, applyUpdateOp, hn,
        topAttr, dlookup_dictSet_self, Bind.bind, Except.bind, Pure.pure, Except.pure, dictSet]
    · rw [findByKey_replaceByKey _ _ _ _ (hkeep (.num inc))]
      exact dlookup_dictSet_self it "loginCount" (.num inc)

/-- Witness for C4: incrementing the sample profile's counter 5 by 2 yields
attributes holding only `loginCount = 7`; on a profile without the counter,
an increment of 3 creates it with value 3. -/
theorem incrementCounter_updated_attr_witness :
    update_login_count [sampleProfile] "user123" "1698768000" 2 =
      .ok ([("loginCount", DVal.num 7)],
        replaceByKey [sampleProfile] "user123" "1698768000"
          (dictSet sampleProfile "loginCount" (DVal.num 7))) ∧
    update_login_count [bareProfile] "u9" "500" 3 =
      .ok ([("loginCount", DVal.num 3)],
        replaceByKey [bareProfile] "u9" "500"
          (dictSet bareProfile "loginCount" (DVal.num 3))) :=
  ⟨(incrementCounter_updated_attr [sampleProfile] "user123" "1698768000" 2
      sampleProfile rfl).1 5 rfl,
   ((incrementCounter_updated_attr [bareProfile] "u9" "500" 3
      bareProfile rfl).2 rfl).1⟩

/-- The item built by `put_user_profile` carries the two primary-key
attributes the client wrote, provided no kwarg overrides them. -/
theorem buildProfileItem_key (now : Nat) (u em fn ln : String)
    (kwargs : List (String × DVal))
    (hk : ∀ kv ∈ kwargs, kv.1 ≠ "userId" ∧ kv.1 ≠ "timestamp") :
    dlookup (buildProfileItem now u em fn ln kwargs) "userId" = some (.str u) ∧
    dlookup (buildProfileItem now u em fn ln kwargs) "timestamp" =
      some (.str (toString now)) := by
  rw [buildProfileItem]
  constructor
  · rw [dlookup_foldl_dictSet_not_mem _ kwargs _ (fun kv hkv => (hk kv hkv).1)]
    simp [dlookup, List.find?]
  · rw [dlookup_foldl_dictSet_not_mem _ kwargs _ (fun kv hkv => (hk kv hkv).2)]
    simp [dlookup, List.find?]

/-- Claim C1: for a key with no stored item, `put_user_profile` succeeds
and stores the built item; a second call with the same key (same user and
same clock second) fails with `conditionFailed` — an error distinct from
every other — and the first write is still what is stored. The kwargs are
only required not to override the two key attributes. -/
theorem createProfile_conditional (tbl : Table) (now : Nat)
    (u em fn ln em2 fn2 ln2 : String) (kwargs kwargs2 : List (String × DVal))
    (hk : ∀ kv ∈ kwargs, kv.1 ≠ "userId" ∧ kv.1 ≠ "timestamp")
    (hk2 : ∀ kv ∈ kwargs2, kv.1 ≠ "userId" ∧ kv.1 ≠ "timestamp")
    (habsent : findByKey tbl u (toString now) = none) :
    ∃ tbl',
      put_user_profile tbl now u em fn ln kwargs = .ok tbl' ∧
      findByKey tbl' u (toString now) =
        some (buildProfileItem now u em fn ln kwargs) ∧
      put_user_profile tbl' now u em2 fn2 ln2 kwargs2 =
        .error .conditionFailed := by
  have hb := buildProfileItem_key now u em fn ln kwargs hk
  have hb2 := buildProfileItem_key now u em2 fn2 ln2 kwargs2 hk2
  have hkey : itemKey (buildProfileItem now u em fn ln kwargs) =
      some (u, toString now) := by
    rw [itemKey, hb.1, hb.2]
  have hkey2 : itemKey (buildProfileItem now u em2 fn2 ln2 kwargs2) =
      some (u, toString now) := by
    rw [itemKey, hb2.1, hb2.2]
  have hfind := findByKey_replaceByKey tbl u (toString now) _ hkey
  refine ⟨replaceByKey tbl u (toString now)
    (buildProfileItem now u em fn ln kwargs), ?_, hfind, ?_⟩
  · simp [put_user_profile, putItem, hkey, habsent, evalCond]
  · simp [put_user_profile, putItem, hkey2, hfind, evalCond, hb.1]

/-- Witness for C1: creating `user789` at clock second 1000 in the empty
table succeeds; re-creating it at the same second fails the condition. -/
theorem createProfile_conditional_witness :
    ∃ tbl',
      put_user_profile [] 1000 "user789" "a@x.com" "Alice" "Johnson" [] =
        .ok tbl' ∧
      findByKey tbl' "user789" (toString 1000) =
        some (buildProfileItem 1000 "user789" "a@x.com" "Alice" "Johnson" []) ∧
      put_user_profile tbl' 1000 "user789" "b@x.com" "Bob" "King" [] =
        .error .conditionFailed :=
  createProfile_conditional [] 1000 "user789" "a@x.com" "Alice" "Johnson"
    "b@x.com" "Bob" "King" [] [] (by simp) (by simp) rfl

/-- Claim C6: `update_preferences` with only `theme` supplied issues one
`SET` on the document path `preferences.theme` (aliases `#prefs.#theme`
resolved through `ExpressionAttributeNames`): the stored item's
`preferences.notifications` entry and every top-level attribute other than
`preferences` are left exactly as they were. -/
theorem updatePreferences_theme_only (tbl : Table) (u t : String) (th : DVal)
    (it : Item) (m : List (String × DVal))
    (hit : findByKey tbl u t = some it)
    (hm : dlookup it "preferences" = some (.map m)) :
    update_preferences tbl u t (some th) none =
      (some (.ok (dictSet it "preferences" (.map (dictSet m "theme" th)))),
       replaceByKey tbl u t
         (dictSet it "preferences" (.map (dictSet m "theme" th))), 1) ∧
    findByKey (replaceByKey tbl u t
        (dictSet it "preferences" (.map (dictSet m "theme" th)))) u t =
      some (dictSet it "preferences" (.map (dictSet m "theme" th))) ∧
    (∀ a, a ≠ "preferences" →
      dlookup (dictSet it "preferences" (.map (dictSet m "theme" th))) a =
        dlookup it a) ∧
    dlookup (dictSet m "theme" th) "notifications" =
      dlookup m "notifications" := by
  have hkey := findByKey_itemKey hit
  have hkeep : itemKey (dictSet it "preferences" (.map (dictSet m "theme" th))) =
      some (u, t) := by
    rw [itemKey, dlookup_dictSet_ne _ _ _ _ (by decide),
      dlookup_dictSet_ne _ _ _ _ (by decide)]
    rw [itemKey] at hkey
    exact hkey
  refine ⟨?_, findByKey_replaceByKey _ _ _ _ hkeep, ?_, ?_⟩
  · rw [dlookup] at hm
    simp [update_preferences, buildPrefsUpdate, resolveOp, updateItem, hit,
      List.foldlM, applyUpdateOp, hm, dlookup, List.find?, Bind.bind,
      Except.bind, Pure.pure, Except.pure, dictSet]
  · intro a ha
    exact dlookup_dictSet_ne _ _ _ _ ha
  · exact dlookup_dictSet_ne _ _ _ _ (by decide)

/-- Witness for C6: on the stored profile whose preferences hold
`notifications = true`, updating only the theme to `"blue"` keeps
`notifications` readable as `true`. -/
theorem updatePreferences_theme_only_witness :
    update_preferences [prefProfile] "user123" "1698768000"
        (some (DVal.str "blue")) none =
      (some (.ok (dictSet prefProfile "preferences"
         (.map (dictSet [("notifications", DVal.bool true)] "theme"
            (DVal.str "blue"))))),
       replaceByKey [prefProfile] "user123" "1698768000"
         (dictSet prefProfile "preferences"
           (.map (dictSet [("notifications", DVal.bool true)] "theme"
              (DVal.str "blue")))), 1) ∧
    dlookup (dictSet [("notifications", DVal.bool true)] "theme"
        (DVal.str "blue")) "notifications" = some (DVal.bool true) := by
  have hw := updatePreferences_theme_only [prefProfile] "user123" "1698768000"
    (DVal.str "blue") prefProfile [("notifications", DVal.bool true)] rfl rfl
  exact ⟨hw.1, hw.2.2.2⟩

/-- Claim C2 amended: `query_user_activity` case-splits on Python
truthiness (supplied and non-empty), not on mere suppliedness: `between`
when both bounds are non-empty strings, `>= start` when only the start is,
`<= end` when only the end is, no sort-key constraint otherwise; every
returned item belongs to the requested partition and satisfies the chosen
condition, and the result is in ascending sort-key order. -/
theorem queryActivity_truthy_cases (tbl : Table) (u : String)
    (st et : Option String) :
    (∀ it ∈ query_user_activity tbl u st et,
        matchesQuery u (buildRange st et) it = true) ∧
    List.Sorted itemLe (query_user_activity tbl u st et) ∧
    (∀ s e, st = some s → et = some e → s ≠ "" → e ≠ "" →
        buildRange st et = some (.between s e)) ∧
    (∀ s, st = some s → s ≠ "" → pyTruthy et = false →
        buildRange st et = some (.gte s)) ∧
    (∀ e, et = some e → e ≠ "" → pyTruthy st = false →
        buildRange st et = some (.lte e)) ∧
    (pyTruthy st = false → pyTruthy et = false → buildRange st et = none) := by
  refine ⟨?_, ?_, ?_, ?_, ?_, ?_⟩
  · intro it hit
    rw [query_user_activity, queryDriver] at hit
    have hmem : it ∈ tbl.filter (matchesQuery u (buildRange st et)) := by
      simpa using hit
    exact (List.mem_filter.mp hmem).2
  · rw [query_user_activity, queryDriver]
    exact List.sorted_insertionSort itemLe _
  · intro s e hs he hs' he'
    subst hs; subst he
    have h1 : pyTruthy (some s) = true := by simp [pyTruthy, hs']
    have h2 : pyTruthy (some e) = true := by simp [pyTruthy, he']
    simp [buildRange, h1, h2]
  · intro s hs hs' het
    subst hs
    have h1 : pyTruthy (some s) = true := by simp [pyTruthy, hs']
    simp [buildRange, h1, het]
  · intro e he he' hst
    subst he
    have h2 : pyTruthy (some e) = true := by simp [pyTruthy, he']
    simp [buildRange, hst, h2]
  · intro hst het
    simp [buildRange, hst, het]

/-- Witness for C2 amended: with bounds `"1"` and `"2"`, the chosen
condition is `between("1","2")`, and the query over a three-item partition
returns items satisfying it in ascending order. -/
theorem queryActivity_truthy_cases_witness :
    buildRange (some "1") (some "2") = some (.between "1" "2") ∧
    List.Sorted itemLe (query_user_activity
      [activityItemA, bareProfile] "u" (some "1") (some "2")) :=
  ⟨(queryActivity_truthy_cases [] "u" (some "1") (some "2")).2.2.1 "1" "2"
      rfl rfl (by decide) (by decide),
   (queryActivity_truthy_cases [activityItemA, bareProfile] "u"
      (some "1") (some "2")).2.1⟩

/-- Counterexample to claim C3: 101 keys, every one of which has a stored
item, are forwarded to the driver in a single un-chunked request, which the
driver rejects — instead of the claimed transparent chunking returning all
101 existing items. -/
theorem batchGet_overlimit_counterexample :
    batch_get_profiles manyTable manyKeys =
      .error (.validationError "Too many items requested") ∧
    manyKeys.length = 101 ∧
    manyKeys.all (fun k => (findByKey manyTable k.1 k.2).isSome) = true ∧
    batch_get_requests manyKeys = [manyKeys] :=
  ⟨rfl, rfl, rfl, rfl⟩

/-- Claim C3 amended: `batch_get_profiles` forwards the keys in a single
driver request without chunking; for inputs within the driver's 100-item
cap it returns exactly the items that exist (missing keys omitted, one
result per existing key), while larger inputs are rejected by the driver
rather than chunked. -/
theorem batchGet_within_limit (tbl : Table) (keys : List (String × String))
    (h : keys.length ≤ batchGetLimit) :
    ∃ items, batch_get_profiles tbl keys = .ok items ∧
      (∀ it ∈ items, ∃ k ∈ keys, findByKey tbl k.1 k.2 = some it) ∧
      (∀ k ∈ keys, ∀ it, findByKey tbl k.1 k.2 = some it → it ∈ items) ∧
      items.length =
        (keys.filter (fun k => (findByKey tbl k.1 k.2).isSome)).length ∧
      batch_get_requests keys = [keys] := by
  refine ⟨keys.filterMap (fun k => findByKey tbl k.1 k.2), ?_, ?_, ?_, ?_, rfl⟩
  · rw [batch_get_profiles, batchGetItems, if_neg (Nat.not_lt.mpr h)]
  · intro it hit
    rcases List.mem_filterMap.mp hit with ⟨k, hk, hfk⟩
    exact ⟨k, hk, hfk⟩
  · intro k hk it hit
    exact List.mem_filterMap.mpr ⟨k, hk, hit⟩
  · exact length_filterMap_eq_length_filter _ keys

/-- Witness for C3 amended: a three-key request (two existing, one missing)
stays within the cap and returns exactly the two existing items. -/
theorem batchGet_within_limit_witness :
    ∃ items,
      batch_get_profiles [sampleProfile, bareProfile]
          [("user123", "1698768000"), ("u9", "500"), ("nope", "0")] =
        .ok items ∧
      (∀ it ∈ items,
        ∃ k ∈ [("user123", "1698768000"), ("u9", "500"), ("nope", "0")],
          findByKey [sampleProfile, bareProfile] k.1 k.2 = some it) ∧
      (∀ k ∈ [("user123", "1698768000"), ("u9", "500"), ("nope", "0")], ∀ it,
          findByKey [sampleProfile, bareProfile] k.1 k.2 = some it →
            it ∈ items) ∧
      items.length =
        (([("user123", "1698768000"), ("u9", "500"), ("nope", "0")] :
            List (String × String)).filter
          (fun k => (findByKey [sampleProfile, bareProfile] k.1 k.2).isSome)).length ∧
      batch_get_requests [("user123", "1698768000"), ("u9", "500"), ("nope", "0")] =
        [[("user123", "1698768000"), ("u9", "500"), ("nope", "0")]] :=
  batchGet_within_limit [sampleProfile, bareProfile]
    [("user123", "1698768000"), ("u9", "500"), ("nope", "0")] (by decide)
